import Mathlib

/-!
Verification of the local AI task-planning engine
(`app/services/local_ai_service.py`).

The Python service is a deterministic, keyword-driven pipeline.  This file
gives a shallow embedding of its data model and operations:

* Python strings are Lean `String`s; `str.lower()` is an ASCII lower-casing
  (all keywords in the source are ASCII), `in` is substring containment,
  `str.replace` is leftmost non-overlapping replacement of all occurrences.
* Python dicts used as records become structures; dicts used as ordered
  keyword tables become association lists scanned in insertion order
  (CPython preserves insertion order, and the source relies on it).
* Python ints arising here are non-negative (durations, week counts,
  offsets), so they are modelled as `Nat`; `//` is `Nat` division.
  The one true-division comparison `duration > max_hours / len(base_tasks)`
  is modelled by the exact equivalent cross-multiplied integer comparison
  `duration * len > max_hours` (the divisor is positive whenever the
  comparison is reached).
* The `try/except` boundary of `generate_task_breakdown` is modelled with
  `Except String`: the pipeline stages are total functions on well-typed
  inputs, and `handleBreakdown` is the catch-all handler that replaces any
  raised error by the fixed fallback plan.
-/

/-- ASCII lower-casing of a string, modelling `str.lower()` on the ASCII
keyword data used by the service. -/
def strToLower (s : String) : String :=
  String.mk (s.data.map Char.toLower)

/-- Substring scan used to model the Python `in` operator on strings:
`subList pat s` is true iff `pat` occurs contiguously in `s`. -/
def subList (pat : List Char) : List Char → Bool
  | [] => pat.isEmpty
  | c :: rest => pat.isPrefixOf (c :: rest) || subList pat rest

/-- `strContains text pat` models Python `pat in text`. -/
def strContains (text pat : String) : Bool :=
  subList pat.data text.data

/-- Leftmost, non-overlapping replacement of every occurrence of `pat` by
`rep` in `s`, modelling Python `str.replace`.  The `fuel` argument bounds
the recursion by the length of the subject string; each step consumes at
least one character, so the fuel is never exhausted on the initial call. -/
def listReplaceFuel (rep pat : List Char) : Nat → List Char → List Char
  | 0, s => s
  | _ + 1, [] => []
  | fuel + 1, c :: rest =>
    if pat.isPrefixOf (c :: rest) && !pat.isEmpty then
      rep ++ listReplaceFuel rep pat fuel ((c :: rest).drop pat.length)
    else
      c :: listReplaceFuel rep pat fuel rest

/-- `strReplace s pat rep` models Python `s.replace(pat, rep)`. -/
def strReplace (s pat rep : String) : String :=
  String.mk (listReplaceFuel rep.data pat.data s.data.length s.data)

/-- A task template entry of the static catalog
(`{"title": ..., "duration": ..., "priority": ...}`). -/
structure TaskTemplate where
  title : String
  duration : Nat
  priority : String
deriving DecidableEq

/-- A produced task draft (the dict built by `_customize_tasks` and
completed by `_add_dependencies` / `_get_fallback_tasks`). -/
structure TaskDraft where
  title : String
  description : String
  priority : String
  estimated_duration_hours : Nat
  dependencies : List Nat
  due_date_offset_days : Nat
deriving DecidableEq

/-- The result dict of `generate_task_breakdown`. -/
structure Breakdown where
  reasoning : String
  estimated_duration_days : Nat
  tasks : List TaskDraft
deriving DecidableEq

/-- Catalog `task_templates["product_launch"]`. -/
def product_launch_templates : List TaskTemplate :=
  [⟨"Market Research and Analysis", 16, "high"⟩,
   ⟨"Define Product Requirements", 12, "high"⟩,
   ⟨"Create Project Timeline", 4, "high"⟩,
   ⟨"Set up Development Environment", 8, "high"⟩,
   ⟨"Design User Interface", 20, "medium"⟩,
   ⟨"Implement Core Features", 40, "high"⟩,
   ⟨"Write Unit Tests", 16, "medium"⟩,
   ⟨"Integration Testing", 12, "medium"⟩,
   ⟨"User Acceptance Testing", 8, "medium"⟩,
   ⟨"Deploy to Production", 8, "high"⟩,
   ⟨"Create Documentation", 12, "low"⟩,
   ⟨"Marketing and Promotion", 16, "medium"⟩]

/-- Catalog `task_templates["learning"]`. -/
def learning_templates : List TaskTemplate :=
  [⟨"Research Learning Resources", 4, "high"⟩,
   ⟨"Set Learning Goals", 2, "high"⟩,
   ⟨"Create Study Schedule", 2, "high"⟩,
   ⟨"Complete Basic Tutorials", 16, "high"⟩,
   ⟨"Practice with Small Projects", 24, "medium"⟩,
   ⟨"Join Learning Community", 4, "low"⟩,
   ⟨"Build Portfolio Project", 32, "medium"⟩,
   ⟨"Seek Feedback and Mentorship", 8, "medium"⟩,
   ⟨"Advanced Practice", 20, "medium"⟩,
   ⟨"Document Learning Journey", 4, "low"⟩]

/-- Catalog `task_templates["event_planning"]`. -/
def event_planning_templates : List TaskTemplate :=
  [⟨"Define Event Objectives", 4, "high"⟩,
   ⟨"Set Budget and Timeline", 4, "high"⟩,
   ⟨"Choose Venue and Date", 8, "high"⟩,
   ⟨"Create Guest List", 4, "medium"⟩,
   ⟨"Send Invitations", 4, "medium"⟩,
   ⟨"Plan Activities and Agenda", 12, "medium"⟩,
   ⟨"Arrange Catering", 6, "medium"⟩,
   ⟨"Set up Equipment and Decorations", 8, "low"⟩,
   ⟨"Coordinate with Vendors", 6, "medium"⟩,
   ⟨"Final Preparations", 4, "high"⟩,
   ⟨"Execute Event", 8, "high"⟩,
   ⟨"Follow-up and Feedback", 4, "low"⟩]

/-- Catalog `task_templates["business_startup"]`. -/
def business_startup_templates : List TaskTemplate :=
  [⟨"Market Research and Validation", 20, "high"⟩,
   ⟨"Create Business Plan", 16, "high"⟩,
   ⟨"Register Business Entity", 4, "high"⟩,
   ⟨"Set up Financial Systems", 8, "high"⟩,
   ⟨"Develop MVP (Minimum Viable Product)", 60, "high"⟩,
   ⟨"Build Brand Identity", 12, "medium"⟩,
   ⟨"Create Marketing Strategy", 16, "medium"⟩,
   ⟨"Launch Website", 20, "medium"⟩,
   ⟨"Find First Customers", 24, "high"⟩,
   ⟨"Gather Customer Feedback", 8, "medium"⟩,
   ⟨"Iterate and Improve", 20, "medium"⟩,
   ⟨"Scale Operations", 32, "low"⟩]

/-- Catalog `task_templates["mobile_app"]`. -/
def mobile_app_templates : List TaskTemplate :=
  [⟨"Define App Requirements", 8, "high"⟩,
   ⟨"Create Wireframes and Mockups", 16, "high"⟩,
   ⟨"Set up Development Environment", 6, "high"⟩,
   ⟨"Implement User Authentication", 12, "high"⟩,
   ⟨"Develop Core Features", 40, "high"⟩,
   ⟨"Integrate APIs and Backend", 20, "medium"⟩,
   ⟨"Implement UI/UX Design", 24, "medium"⟩,
   ⟨"Testing and Bug Fixes", 16, "medium"⟩,
   ⟨"Performance Optimization", 12, "medium"⟩,
   ⟨"Prepare for App Store", 8, "high"⟩,
   ⟨"Submit for Review", 2, "high"⟩,
   ⟨"Launch and Marketing", 16, "medium"⟩]

/-- The dict `self.task_templates` as an insertion-ordered association
list (`_load_task_templates`). -/
def task_templates : List (String × List TaskTemplate) :=
  [("product_launch", product_launch_templates),
   ("learning", learning_templates),
   ("event_planning", event_planning_templates),
   ("business_startup", business_startup_templates),
   ("mobile_app", mobile_app_templates)]

/-- `self.task_templates.get(goal_type, self.task_templates["product_launch"])`. -/
def templates_get (goal_type : String) : List TaskTemplate :=
  match task_templates.lookup goal_type with
  | some ts => ts
  | none => product_launch_templates

/-- The dict `self.priority_keywords` in insertion order
(`_load_priority_keywords`): high, then medium, then low. -/
def priority_keywords : List (String × List String) :=
  [("high", ["urgent", "critical", "essential", "immediate", "launch",
             "deadline", "core", "main", "primary"]),
   ("medium", ["important", "secondary", "support", "enhancement",
               "feature", "improvement"]),
   ("low", ["optional", "nice-to-have", "future", "documentation",
            "cleanup", "optimization"])]

/-- `_analyze_goal_type`: ordered keyword containment checks over the
lower-cased `goal + " " + (context or "")`, defaulting to
`"product_launch"`. -/
def analyze_goal_type (goal : String) (context : Option String) : String :=
  let text := strToLower (goal ++ " " ++ context.getD "")
  if ["app", "mobile", "ios", "android", "react native"].any
      (fun w => strContains text w) then "mobile_app"
  else if ["learn", "study", "course", "tutorial", "skill"].any
      (fun w => strContains text w) then "learning"
  else if ["event", "party", "conference", "meeting", "gathering"].any
      (fun w => strContains text w) then "event_planning"
  else if ["business", "startup", "company", "entrepreneur"].any
      (fun w => strContains text w) then "business_startup"
  else if ["launch", "product", "release", "deploy"].any
      (fun w => strContains text w) then "product_launch"
  else "product_launch"

/-- `_customize_task_title`: first matching goal keyword rewrites the
generic term "Product" in the base title. -/
def customize_task_title (base_title goal : String) (context : Option String) :
    String :=
  let goal_lower := strToLower goal
  if strContains goal_lower "app" || strContains goal_lower "mobile" then
    strReplace base_title "Product" "App"
  else if strContains goal_lower "website" || strContains goal_lower "web" then
    strReplace base_title "Product" "Website"
  else if strContains goal_lower "business" then
    strReplace base_title "Product" "Business"
  else
    base_title

/-- The ordered description table of `_generate_task_description`,
with the goal already interpolated (the source interpolates
`goal.lower()` into each f-string value). -/
def descriptions (goal : String) : List (String × String) :=
  let g := strToLower goal
  [("Market Research", "Research the target market for " ++ g ++
      " to understand user needs and competition."),
   ("Define Requirements", "Define clear requirements and specifications for "
      ++ g ++ "."),
   ("Set up Environment", "Set up the development environment and necessary tools for "
      ++ g ++ "."),
   ("Design", "Create designs and mockups for " ++ g ++
      " focusing on user experience."),
   ("Implement", "Implement the core functionality for " ++ g ++ "."),
   ("Testing", "Test " ++ g ++
      " thoroughly to ensure quality and functionality."),
   ("Deploy", "Deploy " ++ g ++ " to production environment."),
   ("Documentation", "Create comprehensive documentation for " ++ g ++ "."),
   ("Marketing", "Develop marketing strategy and materials for " ++ g ++ ".")]

/-- `_generate_task_description`: first table key whose lower-cased form is
a substring of the lower-cased title supplies the description; otherwise a
generic fallback sentence. -/
def generate_task_description (title goal : String) : String :=
  match (descriptions goal).find?
      (fun kv => strContains (strToLower title) (strToLower kv.1)) with
  | some kv => kv.2
  | none => "Complete the " ++ strToLower title ++ " phase for " ++
      strToLower goal ++ "."

/-- Scan an ordered keyword table and return the first tag whose keyword
set has a substring hit in `text`; translation of the source's
`for priority, keywords in self.priority_keywords.items()` loop with its
default result. -/
def scan_keywords (text : String) : List (String × List String) → String
  | [] => "medium"
  | (tag, kws) :: rest =>
    if kws.any (fun k => strContains text k) then tag
    else scan_keywords text rest

/-- `_determine_priority`: keyword scan over the lower-cased
`title + " " + goal + " " + (context or "")`. -/
def determine_priority (title goal : String) (context : Option String) :
    String :=
  scan_keywords (strToLower (title ++ " " ++ goal ++ " " ++ context.getD ""))
    priority_keywords

/-- One iteration of the `_customize_tasks` loop at index `i`, where `n` is
`len(base_tasks)`.  The duration condition `duration > max_hours / n`
(Python true division) is modelled by the exact integer equivalent
`duration * n > max_hours`. -/
def customize_one (n : Nat) (goal : String) (context : Option String)
    (timeline_weeks : Option Nat) (i : Nat) (task : TaskTemplate) : TaskDraft :=
  let title := customize_task_title task.title goal context
  let duration :=
    match timeline_weeks with
    | none => task.duration
    | some w =>
      if w = 0 then task.duration
      else if task.duration * n > w * 40 then max 4 ((w * 40) / n)
      else task.duration
  { title := title
    description := generate_task_description title goal
    priority := determine_priority task.title goal context
    estimated_duration_hours := duration
    dependencies := []
    due_date_offset_days := i * 2 }

/-- The `_customize_tasks` loop, carrying the running index `i`. -/
def customize_tasks_aux (n : Nat) (goal : String) (context : Option String)
    (timeline_weeks : Option Nat) (i : Nat) :
    List TaskTemplate → List TaskDraft
  | [] => []
  | t :: rest =>
    customize_one n goal context timeline_weeks i t ::
      customize_tasks_aux n goal context timeline_weeks (i + 1) rest

/-- `_customize_tasks`. -/
def customize_tasks (base_tasks : List TaskTemplate) (goal : String)
    (context : Option String) (timeline_weeks : Option Nat) : List TaskDraft :=
  customize_tasks_aux base_tasks.length goal context timeline_weeks 0 base_tasks

/-- Indices `j` of `enumerate(tasks[:i])` whose entry satisfies `p`
(used by the special dependency rules of `_add_dependencies`). -/
def matchEarlier (p : TaskDraft → Bool) (tasks : List TaskDraft) (i : Nat) :
    List Nat :=
  (List.range i).filter (fun j =>
    match tasks[j]? with
    | some t => p t
    | none => false)

/-- The dependency list computed for the task at index `i` by
`_add_dependencies`: linear-chain baseline, then the special `testing` /
`deploy` rules (an `if`/`elif`, so the deploy rule is skipped when the
title contains "testing"), then de-duplication (`list(set(...))`). -/
def depsFor (tasks : List TaskDraft) (i : Nat) (task : TaskDraft) : List Nat :=
  let base := if 0 < i then [i - 1] else []
  let task_title := strToLower task.title
  let special :=
    if strContains task_title "testing" then
      matchEarlier (fun t => strContains (strToLower t.title) "implement" ||
        strContains (strToLower t.title) "develop") tasks i
    else if strContains task_title "deploy" then
      matchEarlier (fun t => strContains (strToLower t.title) "test") tasks i
    else []
  (base ++ special).dedup

/-- Replace a draft's dependency field with the inferred one. -/
def set_deps (tasks : List TaskDraft) (i : Nat) (task : TaskDraft) : TaskDraft :=
  { task with dependencies := depsFor tasks i task }

/-- The `_add_dependencies` loop (titles are read from the original list;
the loop only ever writes the `dependencies` field, so reading from `all`
is faithful to the in-place Python mutation). -/
def add_dependencies_aux (all : List TaskDraft) (i : Nat) :
    List TaskDraft → List TaskDraft
  | [] => []
  | t :: rest => set_deps all i t :: add_dependencies_aux all (i + 1) rest

/-- `_add_dependencies`. -/
def add_dependencies (tasks : List TaskDraft) : List TaskDraft :=
  add_dependencies_aux tasks 0 tasks

/-- `_generate_reasoning`: fixed-structure sentence concatenation; the
timeline sentence is inserted only when `timeline_weeks` is truthy. -/
def generate_reasoning (goal goal_type : String) (task_count : Nat)
    (timeline_weeks : Option Nat) : String :=
  let parts1 :=
    ["Analyzed the goal \x27" ++ goal ++ "\x27 and identified it as a " ++
       strReplace goal_type "_" " " ++ " project.",
     "Generated " ++ toString task_count ++
       " actionable tasks based on best practices for this type of project."]
  let parts2 :=
    match timeline_weeks with
    | none => parts1
    | some w =>
      if w = 0 then parts1
      else parts1 ++ ["Adjusted task durations to fit within the " ++
        toString w ++ "-week timeline."]
  let parts3 := parts2 ++
    ["Tasks are ordered logically with dependencies to ensure smooth progression.",
     "Priority levels are assigned based on importance and dependencies.",
     "Time estimates are realistic and account for potential challenges."]
  String.intercalate " " parts3

/-- Total hours of a draft list
(`sum(task["estimated_duration_hours"] for task in customized_tasks)`). -/
def sumHours (tasks : List TaskDraft) : Nat :=
  (tasks.map (fun t => t.estimated_duration_hours)).sum

/-- `max(1, total_hours // 8)`. -/
def estimated_days_calc (total_hours : Nat) : Nat :=
  max 1 (total_hours / 8)

/-- `_get_fallback_tasks`: the fixed 4-task fallback plan. -/
def get_fallback_tasks (goal : String) : List TaskDraft :=
  [{ title := "Plan and Research " ++ goal
     description := "Research and plan the approach for " ++ goal
     priority := "high"
     estimated_duration_hours := 8
     dependencies := []
     due_date_offset_days := 0 },
   { title := "Implement Core Features for " ++ goal
     description := "Implement the main functionality for " ++ goal
     priority := "high"
     estimated_duration_hours := 16
     dependencies := [0]
     due_date_offset_days := 2 },
   { title := "Test and Validate " ++ goal
     description := "Test the implementation of " ++ goal
     priority := "medium"
     estimated_duration_hours := 8
     dependencies := [1]
     due_date_offset_days := 4 },
   { title := "Deploy and Launch " ++ goal
     description := "Deploy and launch " ++ goal
     priority := "high"
     estimated_duration_hours := 4
     dependencies := [2]
     due_date_offset_days := 6 }]

/-- The body of the `try:` block of `generate_task_breakdown`. -/
def generate_main (goal : String) (timeline_weeks : Option Nat)
    (additional_context : Option String) : Breakdown :=
  let goal_type := analyze_goal_type goal additional_context
  let base_tasks := templates_get goal_type
  let customized_tasks :=
    customize_tasks base_tasks goal additional_context timeline_weeks
  let tasks_with_dependencies := add_dependencies customized_tasks
  let reasoning :=
    generate_reasoning goal goal_type customized_tasks.length timeline_weeks
  let total_hours := sumHours customized_tasks
  { reasoning := reasoning
    estimated_duration_days := estimated_days_calc total_hours
    tasks := tasks_with_dependencies }

/-- The `try:` block as a fallible computation.  Every stage is a total
function on well-typed inputs, so the embedded pipeline always succeeds;
the `Except` wrapper records where a raised exception would surface. -/
def try_generate (goal : String) (timeline_weeks : Option Nat)
    (additional_context : Option String) : Except String Breakdown :=
  Except.ok (generate_main goal timeline_weeks additional_context)

/-- The `except Exception as e:` handler of `generate_task_breakdown`:
an error message `e` is replaced by the fixed fallback plan. -/
def handleBreakdown (goal : String) (r : Except String Breakdown) : Breakdown :=
  match r with
  | Except.ok b => b
  | Except.error e =>
    { reasoning := "Generated using local AI logic. Error: " ++ e
      estimated_duration_days := 14
      tasks := get_fallback_tasks goal }

/-- `generate_task_breakdown`: the pipeline wrapped in the catch-all
recovery boundary. -/
def generate_task_breakdown (goal : String) (timeline_weeks : Option Nat)
    (additional_context : Option String) : Breakdown :=
  handleBreakdown goal (try_generate goal timeline_weeks additional_context)

/-- The five generic suggestions of `generate_task_suggestions`. -/
def generic_suggestions : List String :=
  ["Break down into smaller, more specific subtasks",
   "Add measurable success criteria",
   "Consider potential blockers and mitigation strategies",
   "Set up regular check-ins or milestones",
   "Document lessons learned for future reference"]

/-- `generate_task_suggestions`: generic suggestions, keyword-dependent
extensions, then truncation to the first 5 entries. -/
def generate_task_suggestions (current_task : String) (context : String) :
    List String :=
  let task_lower := strToLower current_task
  let suggestions :=
    if strContains task_lower "research" then
      generic_suggestions ++
        ["Create a research plan with specific questions",
         "Identify key sources and experts to consult"]
    else if strContains task_lower "implement" ||
        strContains task_lower "develop" then
      generic_suggestions ++
        ["Write unit tests alongside implementation",
         "Consider code review and pair programming"]
    else if strContains task_lower "test" then
      generic_suggestions ++
        ["Create test cases before testing begins",
         "Document bugs and their resolutions"]
    else generic_suggestions
  suggestions.take 5

/-- Modelled from the spec (§4.1, §4.3): an ordered first-match scan over
keyword rules — the first rule whose keyword set has a substring hit in
the text yields its tag, and the default is returned when no rule hits. -/
def first_hit (text : String) (dflt : String) :
    List (List String × String) → String
  | [] => dflt
  | (kws, tag) :: rest =>
    if kws.any (fun w => strContains text w) then tag
    else first_hit text dflt rest

/-- The spec's ordered goal-classification rules (§4.1). -/
def goal_type_rules : List (List String × String) :=
  [(["app", "mobile", "ios", "android", "react native"], "mobile_app"),
   (["learn", "study", "course", "tutorial", "skill"], "learning"),
   (["event", "party", "conference", "meeting", "gathering"], "event_planning"),
   (["business", "startup", "company", "entrepreneur"], "business_startup"),
   (["launch", "product", "release", "deploy"], "product_launch")]

/-- Modelled from the spec (§4.1): classification as a first-match scan of
the ordered rule list with default `"product_launch"`. -/
def classify_spec (goal : String) (context : Option String) : String :=
  first_hit (strToLower (goal ++ " " ++ context.getD "")) "product_launch"
    goal_type_rules

/-- The spec's ordered priority rules (§4.3): high, then medium, then low. -/
def priority_rules : List (List String × String) :=
  [(["urgent", "critical", "essential", "immediate", "launch",
     "deadline", "core", "main", "primary"], "high"),
   (["important", "secondary", "support", "enhancement",
     "feature", "improvement"], "medium"),
   (["optional", "nice-to-have", "future", "documentation",
     "cleanup", "optimization"], "low")]

/-- Modelled from the spec (§4.3): priority as a first-match scan of the
ordered priority rules with default `"medium"`. -/
def determine_priority_spec (title goal : String) (context : Option String) :
    String :=
  first_hit (strToLower (title ++ " " ++ goal ++ " " ++ context.getD ""))
    "medium" priority_rules

/-- A draft with the given title and neutral remaining fields, used to
build concrete dependency-inference inputs. -/
def mkDraft (title : String) : TaskDraft :=
  { title := title
    description := ""
    priority := "high"
    estimated_duration_hours := 8
    dependencies := []
    due_date_offset_days := 0 }

/-- A drafts list whose last title contains both "deploy" and "testing":
the `elif` in `_add_dependencies` then skips the deploy rule. -/
def c7_bad_drafts : List TaskDraft :=
  [mkDraft "Test Setup", mkDraft "Middle Step",
   mkDraft "Deploy testing environment"]

/-- A drafts list whose last title contains "deploy" but not "testing". -/
def c7_good_drafts : List TaskDraft :=
  [mkDraft "Test Setup", mkDraft "Middle Step",
   mkDraft "Deploy to Production"]

/-- The dependency-annotated form of the last entry of `c7_good_drafts`. -/
def c7_good_out : TaskDraft :=
  { mkDraft "Deploy to Production" with dependencies := [1, 0] }

/-- A one-archetype catalog whose baseline exceeds a one-week budget. -/
def c5_clamp_base : List TaskTemplate :=
  [⟨"Implement", 50, "high"⟩]

/-- A one-archetype catalog with a low baseline priority and an urgent
keyword in the title. -/
def c4_urgent_base : List TaskTemplate :=
  [⟨"Urgent fix", 8, "low"⟩]

/-- The second fallback task for the goal "g". -/
def c2_fb_task : TaskDraft :=
  { title := "Implement Core Features for g"
    description := "Implement the main functionality for g"
    priority := "high"
    estimated_duration_hours := 16
    dependencies := [0]
    due_date_offset_days := 2 }

/-- Index lemma for the `_add_dependencies` loop: the entry at position
`j` is the original entry with its dependencies recomputed at absolute
index `i + j`. -/
lemma add_dependencies_aux_getElem (all : List TaskDraft) :
    ∀ (l : List TaskDraft) (i j : Nat),
      (add_dependencies_aux all i l)[j]? =
        (l[j]?).map (fun t => set_deps all (i + j) t) := by
  intro l
  induction l with
  | nil => intro i j; simp [add_dependencies_aux]
  | cons hd tl ih =>
    intro i j
    cases j with
    | zero => simp [add_dependencies_aux]
    | succ j =>
      simp only [add_dependencies_aux, List.getElem?_cons_succ, ih (i + 1) j]
      have h : i + 1 + j = i + (j + 1) := by omega
      rw [h]

/-- Every index produced by the dependency rules for position `i` is
strictly below `i`. -/
lemma mem_depsFor_lt (all : List TaskDraft) (i : Nat) (t : TaskDraft) :
    ∀ d ∈ depsFor all i t, d < i := by
  intro d hd
  simp only [depsFor, List.mem_dedup, List.mem_append] at hd
  rcases hd with h | h
  · split at h
    · simp at h; omega
    · simp at h
  · have hm : ∀ p, d ∈ matchEarlier p all i → d < i := by
      intro p hp
      simp only [matchEarlier, List.mem_filter, List.mem_range] at hp
      exact hp.1
    split at h
    · exact hm _ h
    · split at h
      · exact hm _ h
      · simp at h

/-- The customization loop assigns each draft the keyword-determined
priority of its base title; the archetype's baseline priority field is
not consulted. -/
lemma customize_aux_map_priority (n : Nat) (g : String) (c : Option String)
    (w : Option Nat) : ∀ (l : List TaskTemplate) (i : Nat),
    (customize_tasks_aux n g c w i l).map (fun t => t.priority) =
      l.map (fun u => determine_priority u.title g c) := by
  intro l
  induction l with
  | nil => intro i; rfl
  | cons hd tl ih => intro i; simp [customize_tasks_aux, ih (i + 1)]; rfl

/-- The keyword scan only ever returns one of the three tier tags. -/
lemma determine_priority_cases (t g : String) (c : Option String) :
    determine_priority t g c = "high" ∨ determine_priority t g c = "medium" ∨
      determine_priority t g c = "low" := by
  simp only [determine_priority, priority_keywords, scan_keywords]
  split_ifs <;> simp

/-- With a truthy timeline, each produced duration is the baseline when it
fits the per-task budget and the clamped value otherwise. -/
lemma customize_aux_map_hours (n : Nat) (g : String) (c : Option String)
    (w : Nat) (hw : 0 < w) : ∀ (l : List TaskTemplate) (i : Nat),
    (customize_tasks_aux n g c (some w) i l).map
        (fun t => t.estimated_duration_hours) =
      l.map (fun u => if u.duration * n ≤ w * 40 then u.duration
        else max 4 ((w * 40) / n)) := by
  intro l
  induction l with
  | nil => intro i; rfl
  | cons hd tl ih =>
    intro i
    simp only [customize_tasks_aux, List.map_cons, ih (i + 1)]
    congr 1
    simp only [customize_one]
    rw [if_neg (Nat.pos_iff_ne_zero.mp hw)]
    rcases le_or_lt (hd.duration * n) (w * 40) with hle | hlt
    · rw [if_neg (by omega), if_pos hle]
    · rw [if_pos (by omega), if_neg (by omega)]

/-- Dependency inference does not change any duration. -/
lemma sumHours_add_dependencies_aux (all : List TaskDraft) :
    ∀ (l : List TaskDraft) (i : Nat),
      sumHours (add_dependencies_aux all i l) = sumHours l := by
  intro l
  induction l with
  | nil => intro i; rfl
  | cons hd tl ih =>
    intro i
    simp only [add_dependencies_aux, sumHours, List.map_cons, List.sum_cons]
    have h := ih (i + 1)
    simp only [sumHours] at h
    rw [h]
    rfl

/-- A zero timeline is falsy, so customization ignores it exactly as it
ignores an absent timeline. -/
lemma customize_aux_zero (n : Nat) (g : String) (c : Option String) :
    ∀ (l : List TaskTemplate) (i : Nat),
      customize_tasks_aux n g c (some 0) i l =
        customize_tasks_aux n g c none i l := by
  intro l
  induction l with
  | nil => intro i; rfl
  | cons hd tl ih =>
    intro i
    simp only [customize_tasks_aux, ih (i + 1)]
    rfl

/-- C1: the top-level generation operation never propagates an exception —
it is the total function `handleBreakdown` applied to the pipeline result,
and whenever an internal stage raises with message `err`, the result is
exactly the fixed 4-task fallback plan: dependency sets `[], [0], [1], [2]`,
due-date offsets `0, 2, 4, 6`, durations `8, 16, 8, 4` hours, priorities
high, high, medium, high, `estimated_duration_days = 14`, and a reasoning
string embedding the caught error's message. -/
theorem c1_fallback_contract : ∀ goal err : String,
    (∀ (tw : Option Nat) (ctx : Option String),
      generate_task_breakdown goal tw ctx =
        handleBreakdown goal (try_generate goal tw ctx)) ∧
    handleBreakdown goal (Except.error err) =
      { reasoning := "Generated using local AI logic. Error: " ++ err
        estimated_duration_days := 14
        tasks := get_fallback_tasks goal } ∧
    (get_fallback_tasks goal).map (fun t => t.dependencies) =
      [[], [0], [1], [2]] ∧
    (get_fallback_tasks goal).map (fun t => t.due_date_offset_days) =
      [0, 2, 4, 6] ∧
    (get_fallback_tasks goal).map (fun t => t.estimated_duration_hours) =
      [8, 16, 8, 4] ∧
    (get_fallback_tasks goal).map (fun t => t.priority) =
      ["high", "high", "medium", "high"] := by
  intro goal err
  exact ⟨fun tw ctx => rfl, rfl, rfl, rfl, rfl, rfl⟩

/-- C2: acyclicity — in every plan produced by `generate_task_breakdown`
(main path, first conjunct) and in the fallback plan (second conjunct),
every dependency index of the task at position `i` is strictly less
than `i`. -/
theorem c2_acyclicity : (∀ (goal : String) (tw : Option Nat)
    (ctx : Option String) (i : Nat) (t : TaskDraft) (d : Nat),
    (generate_task_breakdown goal tw ctx).tasks[i]? = some t →
    d ∈ t.dependencies → d < i) ∧
    (∀ (goal err : String) (i : Nat) (t : TaskDraft) (d : Nat),
    (handleBreakdown goal (Except.error err)).tasks[i]? = some t →
    d ∈ t.dependencies → d < i) := by
  constructor
  · intro goal tw ctx i t d h hd
    simp only [generate_task_breakdown, try_generate, handleBreakdown,
      generate_main, add_dependencies] at h
    rw [add_dependencies_aux_getElem] at h
    cases horig : (customize_tasks (templates_get (analyze_goal_type goal ctx))
        goal ctx tw)[i]? with
    | none => rw [horig] at h; exact nomatch h
    | some orig =>
      rw [horig] at h
      injection h with h
      subst h
      have := mem_depsFor_lt _ (0 + i) orig d hd
      omega
  · intro goal err i t d h hd
    simp only [handleBreakdown, get_fallback_tasks] at h
    match i with
    | 0 => injection h with h; subst h; simp at hd
    | 1 => injection h with h; subst h; simp at hd; omega
    | 2 => injection h with h; subst h; simp at hd; omega
    | 3 => injection h with h; subst h; simp at hd; omega
    | n + 4 => simp at h

/-- Witness for C2: in the fallback plan for goal "g", the task at index 1
exists, its dependency 0 is a member, and the theorem yields `0 < 1`. -/
theorem c2_acyclicity_witness :
    (handleBreakdown "g" (Except.error "boom")).tasks[1]? = some c2_fb_task ∧
    (0 : Nat) < 1 :=
  ⟨by decide, c2_acyclicity.2 "g" "boom" 1 c2_fb_task 0 (by decide) (by decide)⟩

/-- C3: goal classification scans the five keyword sets in the fixed order
mobile_app, learning, event_planning, business_startup, product_launch
over the lower-cased concatenation of goal and context (empty if absent),
returns the first set with a substring hit and `product_launch` when none
hit (equality with the ordered first-match scan `classify_spec`); in
particular `"Launch a mobile app"` with empty context classifies as
`mobile_app`, not `product_launch`. -/
theorem c3_classification_precedence :
    (∀ (g : String) (c : Option String),
      analyze_goal_type g c = classify_spec g c) ∧
    analyze_goal_type "Launch a mobile app" (some "") = "mobile_app" :=
  ⟨fun g c => rfl, by decide⟩

/-- C4: every customized task's priority is `determine_priority` of the
archetype's base title, goal and context — the archetype's baseline
priority field is never consulted (first conjunct, which fixes the
priority independently of the baseline field); `determine_priority` is the
first-match scan of the keyword tiers in the fixed order high, medium,
low with default `"medium"` (second conjunct); and the produced value is
always one of "high", "medium", "low", so "urgent" is never produced
(third conjunct). -/
theorem c4_priority_override :
    (∀ (base_tasks : List TaskTemplate) (goal : String) (ctx : Option String)
      (tw : Option Nat),
      (customize_tasks base_tasks goal ctx tw).map (fun t => t.priority) =
        base_tasks.map (fun u => determine_priority u.title goal ctx)) ∧
    (∀ (title goal : String) (ctx : Option String),
      determine_priority title goal ctx =
        determine_priority_spec title goal ctx) ∧
    (∀ (title goal : String) (ctx : Option String),
      determine_priority title goal ctx = "high" ∨
      determine_priority title goal ctx = "medium" ∨
      determine_priority title goal ctx = "low") :=
  ⟨fun base_tasks goal ctx tw =>
      customize_aux_map_priority base_tasks.length goal ctx tw base_tasks 0,
   fun title goal ctx => rfl,
   fun title goal ctx => determine_priority_cases title goal ctx⟩

/-- C5: with a supplied positive `timelineWeeks`, each task's duration is
its baseline when the baseline fits the per-task budget
(`baseline * archetypeCount ≤ timelineWeeks * 40`, the exact form of the
source's true-division comparison) and `max 4 (floor (timelineWeeks * 40 /
archetypeCount))` otherwise; and with `timelineWeeks = 1` every clamped
duration is at least 4 hours. -/
theorem c5_duration_scaling (base : List TaskTemplate) (g : String)
    (c : Option String) (w : Nat) (hw : 0 < w) :
    (customize_tasks base g c (some w)).map
        (fun t => t.estimated_duration_hours) =
      base.map (fun u => if u.duration * base.length ≤ w * 40 then u.duration
        else max 4 ((w * 40) / base.length)) ∧
    (∀ (j : Nat) (u : TaskTemplate) (t : TaskDraft), base[j]? = some u →
      (customize_tasks base g c (some 1))[j]? = some t →
      40 < u.duration * base.length → 4 ≤ t.estimated_duration_hours) := by
  constructor
  · exact customize_aux_map_hours base.length g c w hw base 0
  · intro j u t hj ht hclamp
    have hmap : (customize_tasks base g c (some 1)).map
        (fun t => t.estimated_duration_hours) =
        base.map (fun u => if u.duration * base.length ≤ 1 * 40 then u.duration
          else max 4 ((1 * 40) / base.length)) :=
      customize_aux_map_hours base.length g c 1 Nat.one_pos base 0
    have h1 : ((customize_tasks base g c (some 1)).map
        (fun t => t.estimated_duration_hours))[j]? =
        some t.estimated_duration_hours := by
      rw [List.getElem?_map, ht]
      rfl
    rw [hmap, List.getElem?_map, hj] at h1
    simp only [Option.map] at h1
    injection h1 with h1
    rw [if_neg (by omega)] at h1
    rw [← h1]
    omega

/-- Witness for C5: a single 50-hour archetype under a 1-week timeline is
clamped to `max 4 (40 / 1) = 40` hours. -/
theorem c5_duration_scaling_witness : 0 < 1 ∧
    (customize_tasks c5_clamp_base "g" none (some 1)).map
      (fun t => t.estimated_duration_hours) = [40] :=
  ⟨Nat.one_pos, by
    have h := (c5_duration_scaling c5_clamp_base "g" none 1 Nat.one_pos).1
    rw [h]; rfl⟩

/-- C6: the produced plan's `estimated_duration_days` equals
`max 1 (floor (total hours / 8))` of its own task list, and the day
formula maps 40 hours to 5 days and 3 hours to 1 day. -/
theorem c6_day_estimate : ∀ (goal : String) (tw : Option Nat)
    (ctx : Option String),
    (generate_task_breakdown goal tw ctx).estimated_duration_days =
      estimated_days_calc
        (sumHours (generate_task_breakdown goal tw ctx).tasks) ∧
    estimated_days_calc 40 = 5 ∧ estimated_days_calc 3 = 1 := by
  intro goal tw ctx
  refine ⟨?_, rfl, rfl⟩
  simp only [generate_task_breakdown, try_generate, handleBreakdown,
    generate_main, add_dependencies]
  rw [sumHours_add_dependencies_aux]

/-- C7 counterexample: the claim's unconditional deploy rule fails on a
concrete drafts list — the task at index 2 has "deploy" in its lower-cased
title and index 0 has "test" in its title with 0 < 2, yet 0 is not among
the inferred dependencies of index 2, because the title also contains
"testing" and the source's if/elif takes the testing branch instead. -/
theorem c7_deploy_rule_counterexample :
    strContains (strToLower "Deploy testing environment") "deploy" = true ∧
    strContains (strToLower "Test Setup") "test" = true ∧
    (0 : Nat) < 2 ∧
    (add_dependencies c7_bad_drafts)[2]? =
      some { mkDraft "Deploy testing environment" with dependencies := [1] } ∧
    ¬ (0 ∈ ((add_dependencies c7_bad_drafts)[2]?.getD
        (mkDraft "")).dependencies) := by
  refine ⟨rfl, rfl, by omega, by decide, by decide⟩

/-- C7 as amended: for every drafts list, if the lower-cased title of the
task at index `i` contains "deploy" AND does not contain "testing", then
its inferred dependencies include every earlier index `j` whose
lower-cased title contains "test", in addition to the linear-chain
dependency `i - 1` when `i > 0`. -/
theorem c7_deploy_rule_amended : ∀ (drafts : List TaskDraft) (i j : Nat)
    (ti tj t : TaskDraft),
    drafts[i]? = some ti → drafts[j]? = some tj → j < i →
    strContains (strToLower ti.title) "deploy" = true →
    strContains (strToLower ti.title) "testing" = false →
    strContains (strToLower tj.title) "test" = true →
    (add_dependencies drafts)[i]? = some t →
    j ∈ t.dependencies ∧ (0 < i → i - 1 ∈ t.dependencies) := by
  intro drafts i j ti tj t hi hj hji hdep hnot htest ht
  simp only [add_dependencies] at ht
  rw [add_dependencies_aux_getElem, hi] at ht
  injection ht with ht
  subst ht
  simp only [set_deps, depsFor, Nat.zero_add]
  constructor
  · simp only [List.mem_dedup, List.mem_append]
    right
    rw [if_neg (by simp [hnot]), if_pos hdep]
    simp only [matchEarlier, List.mem_filter, List.mem_range]
    exact ⟨hji, by rw [hj]; exact htest⟩
  · intro hpos
    simp only [List.mem_dedup, List.mem_append]
    left
    rw [if_pos hpos]
    simp

/-- Witness for C7's amended theorem: on a drafts list whose deploy title
does not contain "testing", index 2 depends on the test task at index 0
and on its predecessor 1. -/
theorem c7_deploy_rule_witness :
    c7_good_drafts[2]? = some (mkDraft "Deploy to Production") ∧
    (0 : Nat) < 2 ∧
    (add_dependencies c7_good_drafts)[2]? = some c7_good_out ∧
    (0 ∈ c7_good_out.dependencies ∧
      (0 < 2 → 2 - 1 ∈ c7_good_out.dependencies)) :=
  ⟨by decide, by omega, by decide,
    c7_deploy_rule_amended c7_good_drafts 2 0 (mkDraft "Deploy to Production")
      (mkDraft "Test Setup") c7_good_out (by decide) (by decide) (by decide)
      (by decide) (by decide) (by decide) (by decide)⟩

/-- C8: for every task title and context, the suggestion operation returns
exactly the 5 fixed generic suggestions — the domain-specific suggestions
appended for research / implement / develop / test titles never survive
the truncation to the first 5 entries. -/
theorem c8_suggestion_truncation : ∀ title ctx : String,
    generate_task_suggestions title ctx = generic_suggestions ∧
    (generate_task_suggestions title ctx).length = 5 := by
  intro title ctx
  have h : generate_task_suggestions title ctx = generic_suggestions := by
    simp only [generate_task_suggestions]
    split_ifs <;> rfl
  exact ⟨h, by rw [h]; rfl⟩

/-- C9: calling `generate_task_breakdown` with `timeline_weeks = 0`
produces exactly the same result as calling it with no timeline, for every
goal and context — the code tests the timeline for truthiness, and 0 is
falsy, so neither the duration clamp nor the timeline reasoning sentence
applies and no error is raised. -/
theorem c9_zero_timeline_neutral : ∀ (goal : String) (ctx : Option String),
    generate_task_breakdown goal (some 0) ctx =
      generate_task_breakdown goal none ctx := by
  intro goal ctx
  simp only [generate_task_breakdown, try_generate, handleBreakdown,
    generate_main, customize_tasks, customize_aux_zero]
  rfl

/-- C10: the context argument of `generate_task_suggestions` is never
read — any two contexts yield the same suggestions for the same title. -/
theorem c10_suggestions_context_noninterference :
    ∀ (title ctx1 ctx2 : String),
      generate_task_suggestions title ctx1 =
        generate_task_suggestions title ctx2 :=
  fun _ _ _ => rfl
